import Mathlib

/-!
Verification of the shared-memory synchronization substrate of the Stardust
falling-sand engine, as implemented in src/www/main.mjs.  Every definition
below is a shallow embedding of the corresponding JavaScript in that file;
line numbers in the doc comments refer to main.mjs.
-/

namespace Stardust

/-! ## Worker-pool sizing (main.mjs lines 23-31) -/

/-- Line 23: the default hardware concurrency assumed when the platform does
not report one (Safari). -/
def defaultHardwareConcurrency : Nat := 4

/-- Line 24: cores reserved for the main thread and the render thread. -/
def reservedCores : Int := 2

/-- JavaScript truthiness fallback for a possibly-unreported Nat, as in
the expression (navigator.hardwareConcurrency || defaultHardwareConcurrency):
0 and undefined are falsy, so both select the default. -/
def jsOrNat (x : Option Nat) (d : Nat) : Nat :=
  match x with
  | some v => if v = 0 then d else v
  | none => d

/-- Lines 28-31: the fallback pool size when no core override applies:
Math.max(1, (navigator.hardwareConcurrency || defaultHardwareConcurrency)
- reservedCores). -/
def fallbackCores (hardwareConcurrency : Option Nat) : Int :=
  max 1 ((jsOrNat hardwareConcurrency defaultHardwareConcurrency : Int) - reservedCores)

/-- Lines 26-31: availableCores = (+localStorage.coreOverride) || fallback.
The unary plus coerces the stored string to a number; an absent key or a
non-numeric string coerces to NaN.  none models an absent key or NaN
(both falsy); some v models a numeric value, which is falsy exactly when
it is 0.  A truthy override is used verbatim, with no clamping. -/
def availableCores (coreOverride : Option Int) (hardwareConcurrency : Option Nat) : Int :=
  match coreOverride with
  | some v => if v = 0 then fallbackCores hardwareConcurrency else v
  | none => fallbackCores hardwareConcurrency

/-- JavaScript Array(n) used at line 110 for the worker pool: the length
argument must be a nonnegative integer below 2^32, otherwise a RangeError
is thrown. -/
def arrayOfLength (n : Int) : Except String Nat :=
  if 0 ≤ n ∧ n < 2 ^ 32 then Except.ok n.toNat
  else Except.error "RangeError: invalid array length"

/-! ## World store initialization (main.mjs lines 33-77) -/

/-- Line 33: maximum supported backing-store resolution (4k). -/
def maxScreenRes : Nat × Nat := (3840, 2160)

/-- Line 34: totalPixels = maxScreenRes.x * maxScreenRes.y. -/
def totalPixels : Nat := maxScreenRes.1 * maxScreenRes.2

/-- A SharedArrayBuffer-backed typed array of n elements: JavaScript
guarantees zero-initialization. -/
def sharedZeroed (n : Nat) : List Nat := List.replicate n 0

/-- Array.prototype.fill with no start/end arguments, as called on
world.wrappingBehaviour at line 77: every element becomes v. -/
def jsArrayFill (l : List Nat) (v : Nat) : List Nat := l.map (fun _ => v)

/-- Line 49: world.wrappingBehaviour as allocated — four zeroed bytes,
one per edge (top, left, bottom, right). -/
def wrappingBehaviourAllocated : List Nat := sharedZeroed 4

/-- Line 77: Array.prototype.fill.call(world.wrappingBehaviour, 1) —
0 is air, 1 is wall, default to wall. -/
def wrappingBehaviour : List Nat := jsArrayFill wrappingBehaviourAllocated 1

/-- Line 54: world.particles.type as allocated — one zeroed byte per
backing-store cell; species 0 is air. -/
def particlesType : List Nat := sharedZeroed totalPixels

/-! ## Tick clock and barrier (main.mjs lines 40-42, 178-187) -/

/-- The two atomic scalars of the tick barrier: world.workersRunning
(Int32, line 42) and world.tick (BigInt64, line 41). -/
structure TickState where
  workersRunning : Int
  tick : Int
deriving DecidableEq, Repr

/-- Lines 41-42: both cells are freshly allocated SharedArrayBuffers,
hence zero-initialized. -/
def initTickState : TickState := { workersRunning := 0, tick := 0 }

/-- Lines 178-187, the body of one advanceTick invocation.
Atomics.compareExchange(world.workersRunning, 0, 0, resetValue): if
workersRunning is 0 it becomes resetValue and, the exchange having
returned 0, tick is incremented by 1 and Atomics.notify wakes the threads
blocked on it; otherwise nothing changes.  The returned Bool records
whether the exchange succeeded (tick advanced and notify was called).
The code passes availableCores as resetValue. -/
def advanceTick (resetValue : Int) (s : TickState) : TickState × Bool :=
  if s.workersRunning = 0 then
    ({ workersRunning := resetValue, tick := s.tick + 1 }, true)
  else
    (s, false)

/-- A step of the barrier system: a host display refresh running
advanceTick, or one compute worker finishing its pass. -/
inductive BarrierStep
  | refresh
  | workerDone
deriving DecidableEq, Repr

/-- Modelled from the spec: the compute-worker side of the barrier is in
logicWorker.mjs, which is not part of the visible source; per the spec
each worker, after finishing its per-tick pass, decrements runningCount
by 1.  A host refresh runs advanceTick with the given reset value. -/
def applyStep (resetValue : Int) : BarrierStep → TickState → TickState
  | BarrierStep.refresh, s => (advanceTick resetValue s).1
  | BarrierStep.workerDone, s => { s with workersRunning := s.workersRunning - 1 }

/-- Running a sequence of barrier steps from a state. -/
def runSteps (resetValue : Int) (steps : List BarrierStep) (s : TickState) : TickState :=
  steps.foldl (fun t st => applyStep resetValue st t) s

/-! ## Control-plane message handling (main.mjs lines 85-108) -/

/-- A JavaScript value as carried by a control message. -/
inductive JSVal
  | undef
  | num (n : Int)
  | str (s : String)
deriving DecidableEq, Repr

/-- A control message as destructured at line 95:
(\x7btype, data, error\x7d); data and error are each possibly undefined. -/
structure Message where
  type : String
  data : Option (List JSVal)
  error : Option JSVal
deriving DecidableEq, Repr

/-- The callback tables (line 87): callbacks.ok and callbacks.err map a
message kind to a registered callback, identified here by name. -/
structure Callbacks where
  ok : String → Option String
  err : String → Option String

/-- Lines 87-90: the default shared callbacks — ok.hello and ok.pong are
the pong logger; err is empty.  The per-logic-worker table (lines 119-127)
additionally binds ok.ready. -/
def defaultCallbacks : Callbacks :=
  { ok := fun t => if t = "hello" ∨ t = "pong" then some "pong" else none
  , err := fun _ => none }

/-- What one delivery of a message event does, observably. -/
inductive HandlerResult
  | droppedMalformed (log : String)
  | invoked (callbackName : String) (args : List JSVal)
  | loggedViaConsole (args : List JSVal)
  | loggedThenThrewTypeError (log : String)
deriving DecidableEq, Repr

/-- Lines 94-108, the message listener installed by wrapForCallbacks.
If both data and error are present: console.error and return (dropped).
Otherwise look up callbacks[err or ok][type]; when absent, the fallback of
the ?? is console.error itself in the err case (so the error value is
logged by the subsequent call), but in the ok case it is the RESULT of
calling console.error(\dots) — undefined — so the final call
callback(\dots) throws a TypeError after the violation is logged. -/
def wrapForCallbacksOnMessage (cbs : Callbacks) (m : Message) : HandlerResult :=
  if m.error.isSome ∧ m.data.isSome then
    HandlerResult.droppedMalformed
      ("malformed message " ++ m.type ++ ", has both data and error")
  else
    match m.error with
    | some e =>
      match cbs.err m.type with
      | some cb => HandlerResult.invoked cb [e]
      | none => HandlerResult.loggedViaConsole [e]
    | none =>
      match cbs.ok m.type with
      | some cb => HandlerResult.invoked cb (m.data.getD [JSVal.undef])
      | none =>
        HandlerResult.loggedThenThrewTypeError
          ("Unknown main event ok." ++ m.type ++ ".")

/-! ## Worker lifecycle (main.mjs lines 110-173) -/

/-- How one requested logic worker behaves during startup.  Each element
of pendingLogicCores (line 110) is a Promise that resolves when that
worker posts ready (lines 122-126).  ctorThrew: the Worker constructor
threw inside the executor, rejecting the promise.  created k: the worker
was constructed and posts ready k times; its promise resolves on the
first ready and never settles if k = 0. -/
inductive WorkerStartup
  | ctorThrew
  | created (readyCount : Nat)
deriving DecidableEq, Repr

/-- Whether the promise of the worker slot ever settles (fulfills or rejects). -/
def settles : WorkerStartup → Bool
  | WorkerStartup.ctorThrew => true
  | WorkerStartup.created k => decide (1 ≤ k)

/-- Whether the promise of the worker slot fulfills (the worker reached READY). -/
def isFulfilled : WorkerStartup → Bool
  | WorkerStartup.ctorThrew => false
  | WorkerStartup.created k => decide (1 ≤ k)

/-- Line 124: each ready message triggers one hello postMessage back to
that worker, whether or not its promise already resolved. -/
def hellosSentTo : WorkerStartup → Nat
  | WorkerStartup.ctorThrew => 0
  | WorkerStartup.created k => k

/-- Line 152: await Promise.allSettled(pendingLogicCores) — resolves,
with all the outcomes, only once the promise of every requested worker has
settled; if any promise is forever pending the await never completes. -/
def allSettled (ws : List WorkerStartup) : Option (List WorkerStartup) :=
  if ws.all settles then some ws else none

/-- Lines 152-155: logicCores — the requested-worker indices whose
promises fulfilled, in request order. -/
def fulfilledIndices (ws : List WorkerStartup) : List Nat :=
  (List.range ws.length).filter (fun i => isFulfilled (ws.getD i WorkerStartup.ctorThrew))

/-- The shared world store handle, passed by reference, never copied. -/
inductive WorldRef
  | ref
deriving DecidableEq, Repr

/-- The payload of a start directive (line 160):
data = [coreNumber, cores.length, world]. -/
structure StartMsg where
  workerIndex : Nat
  workerCount : Nat
  world : WorldRef
deriving DecidableEq, Repr

/-- Lines 158-161: after the await completes, logicCores.forEach posts
one start message per fulfilled worker, carrying its zero-based index in
the fulfilled pool, the fulfilled-pool size, and the world handle.  Each
list element pairs the requested-worker index receiving the message with
that payload.  If the await never completes, no start is ever sent. -/
def startMessages (ws : List WorkerStartup) : List (Nat × StartMsg) :=
  match allSettled ws with
  | none => []
  | some _ =>
    let cores := fulfilledIndices ws
    cores.enum.map (fun p => (p.2, { workerIndex := p.1, workerCount := cores.length, world := WorldRef.ref }))

/-- The observable outcome of the startup tail of main.mjs (lines
152-204) once the allSettled await completes. -/
structure MainOutcome where
  startMsgs : List (Nat × StartMsg)
  loadedOfRequested : Nat × Nat
  bodyReplaced : Bool
  threw : Bool
  tickLoopStarted : Bool
  renderBound : Bool
deriving DecidableEq, Repr

/-- Lines 152-204: the host awaits allSettled (none = hangs forever),
posts the start directives (line 158), logs the loaded count (line 163),
and if no logic core loaded replaces the document body with a diagnostic
and throws (lines 164-173), so neither the advanceTick loop (line 178)
nor the render binding (lines 191-204) starts; otherwise the tick loop
starts and the render binding follows once the render worker is ready. -/
def mainStartup (ws : List WorkerStartup) (renderReady : Bool) : Option MainOutcome :=
  match allSettled ws with
  | none => none
  | some _ =>
    let cores := fulfilledIndices ws
    if cores.length = 0 then
      some { startMsgs := startMessages ws
           , loadedOfRequested := (cores.length, ws.length)
           , bodyReplaced := true
           , threw := true
           , tickLoopStarted := false
           , renderBound := false }
    else
      some { startMsgs := startMessages ws
           , loadedOfRequested := (cores.length, ws.length)
           , bodyReplaced := false
           , threw := false
           , tickLoopStarted := true
           , renderBound := renderReady }

/-! ## Helper lemmas -/

theorem fulfilled_settles (w : WorkerStartup) (h : isFulfilled w = true) :
    settles w = true := by
  cases w <;> simp_all [isFulfilled, settles]

theorem fulfilledIndices_nodup (ws : List WorkerStartup) : (fulfilledIndices ws).Nodup :=
  List.Nodup.filter _ (List.nodup_range _)

theorem mem_fulfilledIndices (ws : List WorkerStartup) (i : Nat) :
    i ∈ fulfilledIndices ws ↔
      i < ws.length ∧ isFulfilled (ws.getD i WorkerStartup.ctorThrew) = true := by
  simp [fulfilledIndices, List.mem_filter, List.mem_range]

theorem countP_enumFrom_snd (l : List Nat) (i n : Nat) :
    (l.enumFrom n).countP (fun p => p.2 == i) = l.count i := by
  induction l generalizing n with
  | nil => rfl
  | cons a t ih =>
    simp only [List.enumFrom_cons, List.countP_cons, List.count_cons, ih]

theorem filter_enumFrom_not_mem (t : List Nat) (i n : Nat) (h : i ∉ t) :
    (t.enumFrom n).filter (fun p => p.2 == i) = [] := by
  rw [List.filter_eq_nil_iff]
  rintro ⟨a, b⟩ hp hpi
  simp only [beq_iff_eq] at hpi
  subst hpi
  obtain ⟨-, -, hb⟩ := List.mem_enumFrom hp
  exact h (by rw [hb]; exact List.getElem_mem _)

theorem filter_enumFrom_nodup :
    ∀ (l : List Nat) (i n : Nat), l.Nodup → i ∈ l →
      (l.enumFrom n).filter (fun p => p.2 == i) = [(n + List.indexOf i l, i)] := by
  intro l i
  induction l with
  | nil => intro n _ hm; cases hm
  | cons a t ih =>
    intro n hn hm
    by_cases ha : a = i
    · subst ha
      have hnt : a ∉ t := (List.nodup_cons.mp hn).1
      rw [List.enumFrom_cons, List.filter_cons_of_pos (by simp),
        filter_enumFrom_not_mem t a (n + 1) hnt, List.indexOf_cons_self, Nat.add_zero]
    · have hmt : i ∈ t := by
        cases List.mem_cons.mp hm with
        | inl e => exact absurd e.symm ha
        | inr m => exact m
      have harith : n + 1 + List.indexOf i t = n + Nat.succ (List.indexOf i t) := by omega
      rw [List.enumFrom_cons, List.filter_cons_of_neg (by simpa using ha),
        ih (n + 1) (List.nodup_cons.mp hn).2 hmt, List.indexOf_cons_ne t ha, ← harith]

theorem startMessages_of_settled (ws : List WorkerStartup) (h : ws.all settles = true) :
    startMessages ws =
      (fulfilledIndices ws).enum.map
        (fun p => (p.2, { workerIndex := p.1, workerCount := (fulfilledIndices ws).length,
                          world := WorldRef.ref : StartMsg })) := by
  simp [startMessages, allSettled, h]

theorem startMessages_map_fst (ws : List WorkerStartup) (h : ws.all settles = true) :
    (startMessages ws).map Prod.fst = fulfilledIndices ws := by
  rw [startMessages_of_settled ws h, List.map_map]
  have : (Prod.fst ∘ fun p : Nat × Nat =>
      (p.2, { workerIndex := p.1, workerCount := (fulfilledIndices ws).length,
              world := WorldRef.ref : StartMsg })) = Prod.snd := rfl
  rw [this, List.enum_map_snd]

theorem getD_set_self (l : List WorkerStartup) (i : Nat) (a d : WorkerStartup)
    (h : i < l.length) : (l.set i a).getD i d = a := by
  induction l generalizing i with
  | nil => simp at h
  | cons b t ih =>
    cases i with
    | zero => rfl
    | succ j =>
      simp only [List.set, List.getD_cons_succ]
      exact ih j (by simpa using h)

theorem getD_set_ne (l : List WorkerStartup) (i j : Nat) (a d : WorkerStartup)
    (h : i ≠ j) : (l.set i a).getD j d = l.getD j d := by
  induction l generalizing i j with
  | nil => rfl
  | cons b t ih =>
    cases i with
    | zero =>
      cases j with
      | zero => exact absurd rfl h
      | succ j2 => rfl
    | succ i2 =>
      cases j with
      | zero => rfl
      | succ j2 =>
        simp only [List.set, List.getD_cons_succ]
        exact ih i2 j2 (fun e => h (by rw [e]))

theorem all_settles_set (ws : List WorkerStartup) (i k : Nat) (hk : 1 ≤ k)
    (hf : isFulfilled (ws.getD i WorkerStartup.ctorThrew) = true) :
    (ws.set i (WorkerStartup.created k)).all settles = ws.all settles := by
  induction ws generalizing i with
  | nil => rfl
  | cons a t ih =>
    cases i with
    | zero =>
      have ha : settles a = true := fulfilled_settles a (by simpa using hf)
      have hca : settles (WorkerStartup.created k) = true := by
        simp [settles]
        omega
      simp only [List.set, List.all_cons, ha, hca]
    | succ j =>
      have := ih j (by simpa using hf)
      simp [List.set, List.all_cons, this]

theorem fulfilledIndices_set (ws : List WorkerStartup) (i k : Nat) (hk : 1 ≤ k)
    (hi : i < ws.length)
    (hf : isFulfilled (ws.getD i WorkerStartup.ctorThrew) = true) :
    fulfilledIndices (ws.set i (WorkerStartup.created k)) = fulfilledIndices ws := by
  unfold fulfilledIndices
  rw [List.length_set]
  refine List.filter_congr ?_
  intro j hj
  by_cases hij : i = j
  · subst hij
    rw [getD_set_self ws i _ _ hi, hf]
    cases k with
    | zero => exact absurd hk (by simp)
    | succ k2 => simp [isFulfilled]
  · rw [getD_set_ne ws i j _ _ hij]

theorem startMessages_set (ws : List WorkerStartup) (i k : Nat) (hk : 1 ≤ k)
    (hi : i < ws.length)
    (hf : isFulfilled (ws.getD i WorkerStartup.ctorThrew) = true) :
    startMessages (ws.set i (WorkerStartup.created k)) = startMessages ws := by
  unfold startMessages allSettled
  rw [all_settles_set ws i k hk hf, fulfilledIndices_set ws i k hk hi hf]
  by_cases h : ws.all settles = true
  · simp [h]
  · simp [h]

/-! ## Claim theorems -/

/-- Claim C2: one invocation of the host per-refresh tick-advance step
atomically compares workersRunning to 0 and swaps it to the pool-size
argument exactly when it was 0; on success it increments tick by exactly 1
and notifies the threads blocked on tick (the returned flag), and on
failure (workersRunning nonzero) it leaves the state entirely unchanged,
dropping the frame. -/
theorem advanceTick_cas_semantics (n : Int) (s : TickState) :
    (s.workersRunning = 0 →
      advanceTick n s = ({ workersRunning := n, tick := s.tick + 1 }, true)) ∧
    (s.workersRunning ≠ 0 → advanceTick n s = (s, false)) := by
  constructor <;> intro h <;> simp [advanceTick, h]

/-- Witness for C2 at a concrete successful swap and a concrete failed
swap. -/
theorem advanceTick_cas_semantics_witness :
    advanceTick 3 { workersRunning := 0, tick := 5 }
      = ({ workersRunning := 3, tick := 6 }, true) ∧
    advanceTick 3 { workersRunning := 2, tick := 5 }
      = ({ workersRunning := 2, tick := 5 }, false) :=
  ⟨(advanceTick_cas_semantics 3 { workersRunning := 0, tick := 5 }).1 rfl,
   (advanceTick_cas_semantics 3 { workersRunning := 2, tick := 5 }).2 (by decide)⟩

/-- Claim C4: the tick counter starts at 0; each barrier step changes tick
by 0 or exactly +1; a worker-completion step never changes tick and a
failed refresh changes nothing, so tick changes only at a successful
barrier transition; over every sequence of steps tick never decreases. -/
theorem tick_monotonicity :
    initTickState.tick = 0 ∧
    (∀ (n : Int) (st : BarrierStep) (s : TickState),
      (applyStep n st s).tick = s.tick ∨ (applyStep n st s).tick = s.tick + 1) ∧
    (∀ (n : Int) (s : TickState), (applyStep n BarrierStep.workerDone s).tick = s.tick) ∧
    (∀ (n : Int) (s : TickState), (advanceTick n s).2 = false → (advanceTick n s).1 = s) ∧
    (∀ (n : Int) (steps : List BarrierStep) (s : TickState),
      s.tick ≤ (runSteps n steps s).tick) := by
  refine ⟨rfl, ?_, ?_, ?_, ?_⟩
  · intro n st s
    cases st with
    | refresh =>
      by_cases h : s.workersRunning = 0
      · right; simp [applyStep, advanceTick, h]
      · left; simp [applyStep, advanceTick, h]
    | workerDone => left; rfl
  · intro n s; rfl
  · intro n s h
    by_cases hw : s.workersRunning = 0
    · simp [advanceTick, hw] at h
    · simp [advanceTick, hw]
  · intro n steps
    induction steps with
    | nil => intro s; exact le_refl _
    | cons st rest ih =>
      intro s
      have step_le : s.tick ≤ (applyStep n st s).tick := by
        cases st with
        | refresh =>
          by_cases h : s.workersRunning = 0
          · simp [applyStep, advanceTick, h]
          · simp [applyStep, advanceTick, h]
        | workerDone => exact le_refl _
      exact le_trans step_le (ih (applyStep n st s))

/-- Witness for C4: a failed refresh at a concrete state changes
nothing. -/
theorem tick_monotonicity_witness :
    (advanceTick 3 { workersRunning := 2, tick := 7 }).1
      = { workersRunning := 2, tick := 7 } :=
  tick_monotonicity.2.2.2.1 3 { workersRunning := 2, tick := 7 } (by decide)

/-- Claim C8: after world initialization and before the first tick, all
four wrappingBehaviour entries (top, left, bottom, right) are 1 (WALL),
and every backing-store cell has species 0 (air). -/
theorem world_init_defaults :
    wrappingBehaviour = [1, 1, 1, 1] ∧
    particlesType.length = totalPixels ∧
    particlesType.all (fun c => c == 0) = true := by
  refine ⟨rfl, List.length_replicate _ _, ?_⟩
  rw [List.all_eq_true]
  intro x hx
  have : x = 0 := (List.eq_of_mem_replicate hx)
  simp [this]

/-- Claim C9: the compute-worker pool size is computed once at startup:
with no override (absent key, non-numeric, or 0) it is
max(1, hardwareConcurrency - 2), where an unreported hardware concurrency
defaults to 4; with a truthy (nonzero numeric) override it is the
override value.  With nothing reported at all it comes out to
max(1, 4 - 2) = 2. -/
theorem availableCores_formula (hc : Option Nat) (v : Int) :
    availableCores none hc
      = max 1 ((jsOrNat hc defaultHardwareConcurrency : Int) - 2) ∧
    availableCores (some 0) hc
      = max 1 ((jsOrNat hc defaultHardwareConcurrency : Int) - 2) ∧
    (v ≠ 0 → availableCores (some v) hc = v) ∧
    availableCores none none = 2 := by
  refine ⟨rfl, rfl, ?_, rfl⟩
  intro h
  simp [availableCores, h]

/-- Witness for C9: override 3 is used verbatim; no override with
hardware concurrency 8 gives 6. -/
theorem availableCores_formula_witness :
    availableCores (some 3) (some 8) = 3 ∧ availableCores none (some 8) = 6 :=
  ⟨(availableCores_formula (some 8) 3).2.2.1 (by decide),
   by rw [(availableCores_formula (some 8) 3).1]; decide⟩

/-- Claim C10: a nonzero numeric core override is used verbatim with no
validation, bypassing the minimum-of-1 clamp of the no-override path; a
negative override therefore makes the worker-pool construction
Array(availableCores) throw a RangeError, and availableCores is
guaranteed to be at least 1 only in the no-override case. -/
theorem coreOverride_bypasses_clamp (v : Int) (hc : Option Nat) :
    (v ≠ 0 → availableCores (some v) hc = v) ∧
    (v < 0 → arrayOfLength (availableCores (some v) hc)
      = Except.error "RangeError: invalid array length") ∧
    1 ≤ availableCores none hc := by
  refine ⟨?_, ?_, ?_⟩
  · intro h; simp [availableCores, h]
  · intro h
    have hne : v ≠ 0 := by omega
    have hv : availableCores (some v) hc = v := by simp [availableCores, hne]
    rw [hv]
    have hc2 : ¬(0 ≤ v ∧ v < 2 ^ 32) := by omega
    simp [arrayOfLength, hc2]
    omega
  · exact le_max_left 1 _

/-- Witness for C10: override -3 is used verbatim and makes the pool
array construction throw. -/
theorem coreOverride_bypasses_clamp_witness :
    availableCores (some (-3)) none = -3 ∧
    arrayOfLength (availableCores (some (-3)) none)
      = Except.error "RangeError: invalid array length" :=
  ⟨(coreOverride_bypasses_clamp (-3) none).1 (by decide),
   (coreOverride_bypasses_clamp (-3) none).2.1 (by decide)⟩

/-- The startup scenario of claims C1/C5/C7: four workers requested
(override absent, hardware concurrency 6), three post ready once, the
constructor of the fourth throws. -/
def requestedFour : List WorkerStartup :=
  [WorkerStartup.created 1, WorkerStartup.created 1, WorkerStartup.created 1,
   WorkerStartup.ctorThrew]

/-- Claim C1 (refuted — the code resets to the requested count): in a
startup where only 3 of the 4 requested compute workers reach READY,
start is sent to 3 workers with workerCount 3, yet the tick-advance
swaps workersRunning to availableCores = 4, not 3; after the first tick
the 3 live workers each decrement once, leaving workersRunning at 1, so
every later refresh fails and the tick never advances again. -/
theorem advanceTick_resets_to_requested_count :
    availableCores none (some 6) = 4 ∧
    (fulfilledIndices requestedFour).length = 3 ∧
    startMessages requestedFour =
      [(0, { workerIndex := 0, workerCount := 3, world := WorldRef.ref }),
       (1, { workerIndex := 1, workerCount := 3, world := WorldRef.ref }),
       (2, { workerIndex := 2, workerCount := 3, world := WorldRef.ref })] ∧
    advanceTick (availableCores none (some 6)) initTickState
      = ({ workersRunning := 4, tick := 1 }, true) ∧
    runSteps (availableCores none (some 6))
      [BarrierStep.refresh, BarrierStep.workerDone, BarrierStep.workerDone,
       BarrierStep.workerDone] initTickState
      = { workersRunning := 1, tick := 1 } ∧
    (advanceTick (availableCores none (some 6))
      { workersRunning := 1, tick := 1 }).2 = false := by
  decide

/-- The C3 counterexample scenario: two workers requested, the first
reaches READY, the second is created but never posts ready. -/
def oneReadyOnePending : List WorkerStartup :=
  [WorkerStartup.created 1, WorkerStartup.created 0]

/-- Claim C3 is false as stated: with a worker that is created but never
signals ready, the host does not proceed after any settle window — the
allSettled await never completes, no start directive is ever sent, and
the startup tail never runs, even though the other worker is READY. -/
theorem pending_worker_blocks_startup :
    isFulfilled (oneReadyOnePending.getD 0 WorkerStartup.ctorThrew) = true ∧
    settles (oneReadyOnePending.getD 1 WorkerStartup.ctorThrew) = false ∧
    allSettled oneReadyOnePending = none ∧
    startMessages oneReadyOnePending = [] ∧
    mainStartup oneReadyOnePending true = none := by
  decide

/-- Claim C3 (amended): there is no bounded settle window — the host
proceeds exactly when the promise of every requested worker settles
(ready posted, or the constructor threw); it then excludes the failed
workers and sends start to exactly the workers that reached READY, in
request order; a worker created but never signalling ready blocks
startup indefinitely. -/
theorem startup_proceeds_iff_all_settle (ws : List WorkerStartup) (renderReady : Bool) :
    ((mainStartup ws renderReady).isSome ↔ ws.all settles = true) ∧
    (ws.all settles = true →
      (startMessages ws).map Prod.fst = fulfilledIndices ws) ∧
    (∀ w ∈ ws, settles w = false → mainStartup ws renderReady = none) := by
  refine ⟨?_, ?_, ?_⟩
  · by_cases h : ws.all settles = true
    · by_cases hc : (fulfilledIndices ws).length = 0 <;>
        simp [mainStartup, allSettled, h, hc]
    · simp [mainStartup, allSettled, h]
  · intro h
    exact startMessages_map_fst ws h
  · intro w hw hs
    have h : ws.all settles ≠ true := by
      intro hall
      rw [List.all_eq_true] at hall
      rw [hall w hw] at hs
      exact absurd hs (by simp)
    simp [mainStartup, allSettled, h]

/-- Witness for the amended C3: start directives go to exactly the
fulfilled workers of the four-requested scenario, and one pending worker
blocks the two-worker scenario. -/
theorem startup_proceeds_iff_all_settle_witness :
    (startMessages requestedFour).map Prod.fst = fulfilledIndices requestedFour ∧
    mainStartup oneReadyOnePending true = none :=
  ⟨(startup_proceeds_iff_all_settle requestedFour true).2.1 (by decide),
   (startup_proceeds_iff_all_settle oneReadyOnePending true).2.2
     (WorkerStartup.created 0) (by decide) (by decide)⟩

/-- Claim C5: every worker that reaches READY is sent a hello
acknowledgment per ready message (hence at least one) and exactly one
start directive, whose payload is exactly the zero-based index of that
worker in the pool of workers that actually started, the size of that
pool, and the shared world handle; duplicate ready messages (any ready
count of at least 1) leave the start directives unchanged, so a second
ready never re-triggers start. -/
theorem start_sent_exactly_once (ws : List WorkerStartup) (i : Nat)
    (hset : ws.all settles = true) (hi : i < ws.length)
    (hf : isFulfilled (ws.getD i WorkerStartup.ctorThrew) = true) :
    1 ≤ hellosSentTo (ws.getD i WorkerStartup.ctorThrew) ∧
    (startMessages ws).filter (fun m => m.1 == i)
      = [(i, { workerIndex := List.indexOf i (fulfilledIndices ws),
               workerCount := (fulfilledIndices ws).length,
               world := WorldRef.ref })] ∧
    ((startMessages ws).filter (fun m => m.1 == i)).length = 1 ∧
    (∀ m ∈ startMessages ws,
      m.2.workerCount = (fulfilledIndices ws).length ∧ m.2.world = WorldRef.ref) ∧
    (∀ k, 1 ≤ k →
      startMessages (ws.set i (WorkerStartup.created k)) = startMessages ws) := by
  have hfilter : (startMessages ws).filter (fun m => m.1 == i)
      = [(i, { workerIndex := List.indexOf i (fulfilledIndices ws),
               workerCount := (fulfilledIndices ws).length,
               world := WorldRef.ref })] := by
    have hmem : i ∈ fulfilledIndices ws := (mem_fulfilledIndices ws i).mpr ⟨hi, hf⟩
    rw [startMessages_of_settled ws hset, List.filter_map]
    have hcomp : ((fun m : Nat × StartMsg => m.1 == i) ∘
        (fun p : Nat × Nat =>
          (p.2, { workerIndex := p.1, workerCount := (fulfilledIndices ws).length,
                  world := WorldRef.ref : StartMsg })))
        = (fun p : Nat × Nat => p.2 == i) := rfl
    rw [hcomp, List.enum_eq_enumFrom,
      filter_enumFrom_nodup (fulfilledIndices ws) i 0 (fulfilledIndices_nodup ws) hmem]
    simp
  refine ⟨?_, hfilter, ?_, ?_, ?_⟩
  · cases hw : ws.getD i WorkerStartup.ctorThrew with
    | ctorThrew => rw [hw] at hf; simp [isFulfilled] at hf
    | created k =>
      rw [hw] at hf
      simp only [isFulfilled, decide_eq_true_eq] at hf
      simpa [hellosSentTo] using hf
  · rw [hfilter]
    rfl
  · intro m hm
    rw [startMessages_of_settled ws hset] at hm
    rw [List.mem_map] at hm
    obtain ⟨p, _, rfl⟩ := hm
    exact ⟨rfl, rfl⟩
  · intro k hk
    exact startMessages_set ws i k hk hi hf

/-- Witness for C5 at worker 2 of the four-requested scenario: one hello
at least; the single start directive carries index 2, count 3 and the
world handle; and five ready messages instead of one change nothing. -/
theorem start_sent_exactly_once_witness :
    1 ≤ hellosSentTo (requestedFour.getD 2 WorkerStartup.ctorThrew) ∧
    (startMessages requestedFour).filter (fun m => m.1 == 2)
      = [(2, { workerIndex := 2, workerCount := 3, world := WorldRef.ref })] ∧
    ((startMessages requestedFour).filter (fun m => m.1 == 2)).length = 1 ∧
    startMessages (requestedFour.set 2 (WorkerStartup.created 5))
      = startMessages requestedFour :=
  ⟨(start_sent_exactly_once requestedFour 2 (by decide) (by decide) (by decide)).1,
   (start_sent_exactly_once requestedFour 2 (by decide) (by decide) (by decide)).2.1,
   (start_sent_exactly_once requestedFour 2 (by decide) (by decide) (by decide)).2.2.1,
   (start_sent_exactly_once requestedFour 2 (by decide) (by decide)
     (by decide)).2.2.2.2 5 (by decide)⟩

/-- Claim C6 (refuted for success messages of unrecognized kind): a
message with both data and error is logged and dropped, and an error
message of unrecognized kind is logged harmlessly, but a success message
of unrecognized kind makes the listener throw a TypeError after logging
the violation: in that branch the ?? fallback is the undefined RESULT of
calling console.error, which is then called as the callback. -/
theorem unknown_ok_message_throws :
    wrapForCallbacksOnMessage defaultCallbacks
        { type := "bogus", data := some [], error := none }
      = HandlerResult.loggedThenThrewTypeError "Unknown main event ok.bogus." ∧
    wrapForCallbacksOnMessage defaultCallbacks
        { type := "hello", data := some [], error := some (JSVal.str "boom") }
      = HandlerResult.droppedMalformed
          "malformed message hello, has both data and error" ∧
    wrapForCallbacksOnMessage defaultCallbacks
        { type := "bogus", data := none, error := some (JSVal.str "boom") }
      = HandlerResult.loggedViaConsole [JSVal.str "boom"] ∧
    wrapForCallbacksOnMessage defaultCallbacks
        { type := "pong", data := some [JSVal.num 1], error := none }
      = HandlerResult.invoked "pong" [JSVal.num 1] := by
  refine ⟨rfl, rfl, rfl, rfl⟩

/-- The C7 total-failure scenario: two workers requested, both
constructors throw, none reaches READY. -/
def noneReady : List WorkerStartup :=
  [WorkerStartup.ctorThrew, WorkerStartup.ctorThrew]

/-- Claim C7: once every requested worker settles, if zero compute
workers reached READY startup is fatal — the document body is replaced
with a diagnostic, an Error is thrown, and neither the tick loop nor the
render binding starts; with at least one READY worker startup proceeds
with the reduced pool — no diagnostic, no throw, the tick loop starts,
and the render binding follows render-worker readiness. -/
theorem zero_cores_fatal_else_reduced_pool (ws : List WorkerStartup)
    (renderReady : Bool) (hset : ws.all settles = true) :
    ((fulfilledIndices ws).length = 0 →
      mainStartup ws renderReady = some
        { startMsgs := [], loadedOfRequested := (0, ws.length),
          bodyReplaced := true, threw := true, tickLoopStarted := false,
          renderBound := false }) ∧
    (0 < (fulfilledIndices ws).length →
      mainStartup ws renderReady = some
        { startMsgs := startMessages ws,
          loadedOfRequested := ((fulfilledIndices ws).length, ws.length),
          bodyReplaced := false, threw := false, tickLoopStarted := true,
          renderBound := renderReady }) := by
  have hall : allSettled ws = some ws := by simp [allSettled, hset]
  constructor
  · intro h0
    have hcores : fulfilledIndices ws = [] := List.length_eq_zero.mp h0
    have hmsgs : startMessages ws = [] := by
      rw [startMessages_of_settled ws hset, hcores]
      rfl
    simp [mainStartup, hall, h0, hmsgs]
  · intro hpos
    have h0 : ¬(fulfilledIndices ws).length = 0 := by omega
    simp [mainStartup, hall, h0]

/-- Witness for C7: the two-constructor-failures scenario is fatal with
a diagnostic; the four-requested scenario proceeds with a pool of 3. -/
theorem zero_cores_fatal_else_reduced_pool_witness :
    mainStartup noneReady true = some
      { startMsgs := [], loadedOfRequested := (0, 2), bodyReplaced := true,
        threw := true, tickLoopStarted := false, renderBound := false } ∧
    mainStartup requestedFour true = some
      { startMsgs := startMessages requestedFour, loadedOfRequested := (3, 4),
        bodyReplaced := false, threw := false, tickLoopStarted := true,
        renderBound := true } :=
  ⟨(zero_cores_fatal_else_reduced_pool noneReady true (by decide)).1 (by decide),
   (zero_cores_fatal_else_reduced_pool requestedFour true (by decide)).2 (by decide)⟩

end Stardust
